import Mathlib

/-!
Verification of the movie recommendation pipeline.

The data source is modelled as an in-memory list of rating rows (the
`ratings` table) and movie rows (the `movies` table).  The two SQL
queries of `database_utils.py` (`get_similar_recs`, `get_all_user_recs`)
are translated into pure list computations; SQL float division is
modelled with exact rational arithmetic.  `execute_query` returns `None`
when the query raises, so both query wrappers return an `Option`; a
`Bool` flag stands for whether the database call succeeds.  The pandas
combiner of `app.py` (`recommendation`) is translated step by step:
`value_counts` over distinct users, outer merge with `fillna(0)`,
`replace(0, 1)` on the popularity column before dividing, descending
sort on the score, `head(10)`, and the inner join with the movie table.
-/

/-- One row of the `ratings` table: `(userId, movieId, rating)`.
The timestamp column is never read by the queries under study. -/
structure RatingRow where
  userId : Nat
  movieId : Nat
  rating : ℚ
deriving DecidableEq, Repr

/-- One row of the `movies` table: `(movieId, title)`. -/
structure MovieRow where
  movieId : Nat
  title : String
deriving DecidableEq, Repr

/-- A row of the merged score table built in `recommendation`:
columns `movieId`, `similarity_score`, `count` and `score`. -/
structure ScoredRow where
  movieId : Nat
  similarity_score : ℚ
  count : ℚ
  score : ℚ
deriving DecidableEq, Repr

/-- A row of the final result: the merged score columns joined with the
movie title. -/
structure ResultRow where
  movieId : Nat
  similarity_score : ℚ
  count : ℚ
  score : ℚ
  title : String
deriving DecidableEq, Repr

/-- The rows of `ratings` with `"movieId" = :movie_id AND "rating" > 4`:
the seed events selected by the inner subqueries of both aggregator
queries. -/
def seedRows (db : List RatingRow) (target : Nat) : List RatingRow :=
  db.filter (fun r => decide (r.movieId = target ∧ 4 < r.rating))

/-- The user ids of the seed events (the `IN` subquery of
`get_similar_recs`, and the `frequent_users` CTE of
`get_all_user_recs`), with multiplicity. -/
def seedUsers (db : List RatingRow) (target : Nat) : List Nat :=
  (seedRows db target).map (fun r => r.userId)

/-- `count("userId")` over the seed events: the denominator of both
similarity scores.  It counts rows, not distinct users. -/
def seedEventCount (db : List RatingRow) (target : Nat) : Nat :=
  (seedRows db target).length

/-- The rows selected by the outer query of `get_similar_recs`:
`"rating" > 4 AND "userId" IN (seed users)`. -/
def cohortHighRows (db : List RatingRow) (target : Nat) : List RatingRow :=
  db.filter (fun r => decide (4 < r.rating ∧ r.userId ∈ seedUsers db target))

/-- The group count of `get_similar_recs` for one movie id. -/
def simNumerator (db : List RatingRow) (target m : Nat) : Nat :=
  ((cohortHighRows db target).filter (fun r => decide (r.movieId = m))).length

/-- `similarity_score` of `get_similar_recs`:
`CAST(count("userId") AS FLOAT) / (count of seed events)`. -/
def similarityScore (db : List RatingRow) (target m : Nat) : ℚ :=
  (simNumerator db target m : ℚ) / (seedEventCount db target : ℚ)

/-- The movie ids that appear as groups in `get_similar_recs`
(the distinct movie ids of the cohort rows). -/
def simCandidates (db : List RatingRow) (target : Nat) : List Nat :=
  ((cohortHighRows db target).map (fun r => r.movieId)).dedup

/-- Descending sort on a rational key (`ORDER BY ... DESC`,
`sort_values(..., ascending=False)`). -/
def sortDescBy {α : Type} (key : α → ℚ) (l : List α) : List α :=
  List.insertionSort (fun a b => key b ≤ key a) l

/-- `get_similar_recs(movieId)` of `database_utils.py`: the grouped
similarity scores, filtered to `similarity_score > 0.1`, ordered by
descending score.  `ok` tells whether the query executes; on failure
`execute_query` catches the exception and returns `None`. -/
def get_similar_recs (ok : Bool) (db : List RatingRow) (target : Nat) :
    Option (List (Nat × ℚ)) :=
  if ok then
    some (sortDescBy Prod.snd
      (((simCandidates db target).map
          (fun m => (m, similarityScore db target m))).filter
        (fun p => decide ((0.1 : ℚ) < p.2))))
  else none

/-- The multiplicity of a user id in the `frequent_users` CTE of
`get_all_user_recs` (the CTE does not deduplicate). -/
def fuMult (db : List RatingRow) (target u : Nat) : Nat :=
  ((seedRows db target).filter (fun r => decide (r.userId = u))).length

/-- The `movie_counts` group count of `get_all_user_recs` for one movie:
each high rating row of the movie is joined against every matching
`frequent_users` row. -/
def joinCount (db : List RatingRow) (target m : Nat) : Nat :=
  ((db.filter (fun r => decide (r.movieId = m ∧ 4 < r.rating))).map
    (fun r => fuMult db target r.userId)).sum

/-- `similarity_score` of the `movie_counts` CTE:
`CAST(COUNT(...) AS FLOAT) / (SELECT COUNT(*) FROM frequent_users)`. -/
def allScore (db : List RatingRow) (target m : Nat) : ℚ :=
  (joinCount db target m : ℚ) / (seedEventCount db target : ℚ)

/-- The `similar_movies` CTE of `get_all_user_recs`: the movie ids whose
cohort-joined similarity score exceeds `0.1`. -/
def similar_movies (db : List RatingRow) (target : Nat) : List Nat :=
  (((db.filter (fun r => decide (4 < r.rating))).map
      (fun r => r.movieId)).dedup).filter
    (fun m => decide ((0.1 : ℚ) < allScore db target m))

/-- `get_all_user_recs(movieId)` of `database_utils.py`: every rating
row with `"rating" > 4` whose movie id is in `similar_movies`.  `ok`
models whether the query executes (`None` on failure). -/
def get_all_user_recs (ok : Bool) (db : List RatingRow) (target : Nat) :
    Option (List RatingRow) :=
  if ok then
    some (db.filter
      (fun r => decide (4 < r.rating ∧ r.movieId ∈ similar_movies db target)))
  else none

/-- Lookup of a movie id in a two-column frame after an outer merge:
a present key yields its value, a missing key was filled with `0` by
`fillna(0)`. -/
def lookupScore (l : List (Nat × ℚ)) (m : Nat) : ℚ :=
  match l.find? (fun p => decide (p.1 = m)) with
  | some p => p.2
  | none => 0

/-- The `all_user_recs` frame of `recommendation`:
`all_users["movieId"].value_counts() / len(all_users["userId"].unique())`,
one `(movieId, count)` row per distinct movie id of `all_users`. -/
def popularity_counts (all_users : List RatingRow) : List (Nat × ℚ) :=
  ((all_users.map (fun r => r.movieId)).dedup).map
    (fun m => (m,
      (((all_users.filter (fun r => decide (r.movieId = m))).length : ℚ)) /
        (((all_users.map (fun r => r.userId)).dedup).length : ℚ)))

/-- The key column of the outer merge (`how='outer'`): the union of the
movie ids of both frames, without duplicates. -/
def mergedKeys (sim pop : List (Nat × ℚ)) : List Nat :=
  sim.map Prod.fst ++
    (pop.map Prod.fst).filter (fun m => decide (m ∉ sim.map Prod.fst))

/-- The `combined_recommendations` frame of `recommendation`: outer
merge on `movieId`, `fillna(0)`, then
`score = similarity_score / count.replace(0, 1)`, sorted by descending
score. -/
def combined_recommendations (sim : List (Nat × ℚ))
    (all_users : List RatingRow) : List ScoredRow :=
  sortDescBy ScoredRow.score
    ((mergedKeys sim (popularity_counts all_users)).map (fun m =>
      { movieId := m
        similarity_score := lookupScore sim m
        count := lookupScore (popularity_counts all_users) m
        score := lookupScore sim m /
          (if lookupScore (popularity_counts all_users) m = 0 then 1
           else lookupScore (popularity_counts all_users) m) }))

/-- The final join of `recommendation`:
`pd.merge(combined_recommendations.head(10), load_movies(), on="movieId")`
(inner join, left order preserved, one output row per matching pair). -/
def joinMovies (scored : List ScoredRow) (movies : List MovieRow) :
    List ResultRow :=
  scored.flatMap (fun row =>
    (movies.filter (fun mv => decide (mv.movieId = row.movieId))).map (fun mv =>
      { movieId := row.movieId
        similarity_score := row.similarity_score
        count := row.count
        score := row.score
        title := mv.title }))

/-- The body of `recommendation` after the two data fetches.  A `none`
fetch result stands for a failed query: the Python code then raises
inside the `try` block (`None.empty` or `pd.merge(None, ...)`) and the
handler returns an empty frame.  An empty `all_users` skips the merge
branch and returns an empty frame. -/
def recommendation_body (simRes : Option (List (Nat × ℚ)))
    (allRes : Option (List RatingRow)) (movies : List MovieRow) :
    List ResultRow :=
  match allRes with
  | none => []
  | some all_users =>
    if all_users = [] then []
    else
      match simRes with
      | none => []
      | some sim =>
        joinMovies ((combined_recommendations sim all_users).take 10) movies

/-- `recommendation(movie_id)` of `app.py`, with explicit flags for the
success of the two data-source queries. -/
def recommendation (okSim okAll : Bool) (db : List RatingRow)
    (movies : List MovieRow) (movie_id : Nat) : List ResultRow :=
  recommendation_body (get_similar_recs okSim db movie_id)
    (get_all_user_recs okAll db movie_id) movies

/-- A concrete ratings snapshot: users 1 and 2 both rate movie 1 with 5;
user 1 also rates movie 2 with 5; user 2 also rates movie 3 with 5. -/
def exDb : List RatingRow :=
  [⟨1, 1, 5⟩, ⟨2, 1, 5⟩, ⟨1, 2, 5⟩, ⟨2, 3, 5⟩]

/-- A concrete movie table for `exDb`. -/
def exMovies : List MovieRow :=
  [⟨1, "A"⟩, ⟨2, "B"⟩, ⟨3, "C"⟩]

/-- A snapshot in which user 1 rated movie 2 twice: the `ratings` table
has no uniqueness constraint on `(userId, movieId)`. -/
def dupDb : List RatingRow :=
  [⟨1, 1, 5⟩, ⟨1, 2, 5⟩, ⟨1, 2, 5⟩]

/-- The cache kept by the two `st.cache_data` wrappers of `app.py`:
one memoisation table per wrapped fetch, keyed by the movie id, storing
whatever the underlying call returned (including `None`). -/
structure CacheState where
  simCache : List (Nat × Option (List (Nat × ℚ)))
  allCache : List (Nat × Option (List RatingRow))
deriving Repr

/-- Lookup in one memoisation table. -/
def cacheLookup {α : Type} (c : List (Nat × α)) (k : Nat) : Option α :=
  (c.find? (fun p => decide (p.1 = k))).map Prod.snd

/-- `get_cached_similar_recs(movie_id)`: return the memoised value on a
hit, otherwise run `get_similar_recs` and record its result. -/
def get_cached_similar_recs (ok : Bool) (db : List RatingRow)
    (s : CacheState) (m : Nat) :
    Option (List (Nat × ℚ)) × CacheState :=
  match cacheLookup s.simCache m with
  | some v => (v, s)
  | none =>
    (get_similar_recs ok db m,
      { s with simCache := s.simCache ++ [(m, get_similar_recs ok db m)] })

/-- `get_cached_all_user_recs(movie_id)`: return the memoised value on a
hit, otherwise run `get_all_user_recs` and record its result. -/
def get_cached_all_user_recs (ok : Bool) (db : List RatingRow)
    (s : CacheState) (m : Nat) :
    Option (List RatingRow) × CacheState :=
  match cacheLookup s.allCache m with
  | some v => (v, s)
  | none =>
    (get_all_user_recs ok db m,
      { s with allCache := s.allCache ++ [(m, get_all_user_recs ok db m)] })

/-- `recommendation(movie_id)` with the `st.cache_data` layer made
explicit: the two fetches go through the memoisation tables and the
updated tables are returned alongside the result. -/
def recommendation_cached (okSim okAll : Bool) (db : List RatingRow)
    (movies : List MovieRow) (movie_id : Nat) (s : CacheState) :
    List ResultRow × CacheState :=
  match get_cached_similar_recs okSim db s movie_id with
  | (simRes, s1) =>
    match get_cached_all_user_recs okAll db s1 movie_id with
    | (allRes, s2) => (recommendation_body simRes allRes movies, s2)

example : get_similar_recs true exDb 1 =
    some [(1, 1), (2, 1/2), (3, 1/2)] := by
  norm_num [get_similar_recs, sortDescBy, simCandidates, cohortHighRows,
    seedUsers, seedRows, similarityScore, simNumerator, seedEventCount,
    exDb, List.filter_cons, List.dedup_cons_of_mem, List.dedup_cons_of_not_mem,
    List.insertionSort, List.orderedInsert]

example : (get_all_user_recs true exDb 1).map List.length = some 4 := by
  norm_num [get_all_user_recs, similar_movies, allScore, joinCount, fuMult,
    seedRows, seedEventCount, exDb, List.filter_cons,
    List.dedup_cons_of_mem, List.dedup_cons_of_not_mem]

/-! ### Helper lemmas -/

theorem similar_movies_of_no_seed (db : List RatingRow) (target : Nat)
    (h : seedRows db target = []) : similar_movies db target = [] := by
  unfold similar_movies
  rw [List.filter_eq_nil_iff]
  intro m _
  norm_num [allScore, seedEventCount, h, div_zero]

theorem get_all_user_recs_of_no_seed (db : List RatingRow) (target : Nat)
    (h : seedRows db target = []) : get_all_user_recs true db target = some [] := by
  unfold get_all_user_recs
  rw [if_pos rfl]
  congr 1
  rw [List.filter_eq_nil_iff]
  intro r _
  rw [similar_movies_of_no_seed db target h]
  simp

/-! ### Claims -/

/-- C7: for every input movie identifier and every internal data-source
failure, `recommendation` returns an empty result list (the surrounding
`try`/`except` turns the raised exception into an empty frame). -/
theorem C7_failure_degrades_to_empty (okSim okAll : Bool)
    (db : List RatingRow) (movies : List MovieRow) (movie_id : Nat)
    (h : okSim = false ∨ okAll = false) :
    recommendation okSim okAll db movies movie_id = [] := by
  unfold recommendation recommendation_body
  rcases h with h | h <;> subst h
  · cases hA : get_all_user_recs okAll db movie_id with
    | none => rfl
    | some l => by_cases hE : l = [] <;> simp [get_similar_recs, hE]
  · rfl

theorem C7_witness :
    (false = false ∨ (true : Bool) = false) ∧
      recommendation false true exDb exMovies 1 = [] :=
  ⟨Or.inl rfl, C7_failure_degrades_to_empty false true exDb exMovies 1 (Or.inl rfl)⟩

/-- C6 counterexample: when the data-source query fails, the aggregator
operations do not return an empty mapping; `execute_query` catches the
exception and returns `None`, so both return a null value. -/
theorem C6_counterexample :
    get_similar_recs false exDb 1 = none ∧
      get_similar_recs false exDb 1 ≠ some [] ∧
      get_all_user_recs false exDb 1 = none :=
  ⟨rfl, fun h => Option.noConfusion h, rfl⟩

/-- C6 amended: when a data-source query fails to execute, each
Aggregator operation returns `None` (a null value, not an empty
mapping); the caller `recommendation` then degrades to an empty result
through its exception handler. -/
theorem C6_amended_null_on_failure (db : List RatingRow) (t : Nat) :
    get_similar_recs false db t = none ∧
      get_all_user_recs false db t = none ∧
      ∀ movies : List MovieRow, recommendation false false db movies t = [] :=
  ⟨rfl, rfl, fun _ => rfl⟩

/-- C2: a movie identifier whose seed cohort is empty (no rating of the
target with rating above 4) yields an empty recommendation list, for
every combination of query outcomes. -/
theorem C2_empty_cohort_empty_result (okSim okAll : Bool)
    (db : List RatingRow) (movies : List MovieRow) (target : Nat)
    (h : seedRows db target = []) :
    recommendation okSim okAll db movies target = [] := by
  unfold recommendation recommendation_body
  cases okAll with
  | false => rfl
  | true =>
    rw [get_all_user_recs_of_no_seed db target h]
    rfl

theorem C2_witness :
    seedRows exDb 7 = [] ∧ recommendation true true exDb exMovies 7 = [] :=
  ⟨by decide, C2_empty_cohort_empty_result true true exDb exMovies 7 (by decide)⟩

theorem mem_seedUsers_of (db : List RatingRow) (target : Nat) {r : RatingRow}
    (hr : r ∈ db) (hm : r.movieId = target) (h4 : (4:ℚ) < r.rating) :
    r.userId ∈ seedUsers db target := by
  unfold seedUsers seedRows
  exact List.mem_map.mpr ⟨r, List.mem_filter.mpr ⟨hr, by simp [hm, h4]⟩, rfl⟩

theorem cohortHighRows_filter_target (db : List RatingRow) (target : Nat) :
    (cohortHighRows db target).filter (fun r => decide (r.movieId = target)) =
      seedRows db target := by
  unfold cohortHighRows seedRows
  rw [List.filter_filter]
  apply List.filter_congr
  intro r hr
  by_cases hm : r.movieId = target <;> by_cases h4 : (4:ℚ) < r.rating <;>
    simp [hm, h4]
  exact mem_seedUsers_of db target hr hm h4

theorem similarityScore_target (db : List RatingRow) (target : Nat)
    (h : seedRows db target ≠ []) :
    similarityScore db target target = 1 := by
  unfold similarityScore simNumerator seedEventCount
  rw [cohortHighRows_filter_target]
  exact div_self (Nat.cast_ne_zero.mpr
    (fun h0 => h (List.length_eq_zero.mp h0)))

/-- C10: a target movie with at least one rating above 4 appears in the
result of `get_similar_recs` for itself with similarity score exactly 1
(its group count equals the seed event count, and 1 passes the 0.1
noise filter). -/
theorem C10_target_scores_one (db : List RatingRow) (target : Nat)
    (h : seedRows db target ≠ []) :
    (target, (1:ℚ)) ∈ (get_similar_recs true db target).getD [] := by
  obtain ⟨r, hr⟩ := List.exists_mem_of_ne_nil _ h
  have hr' := hr
  unfold seedRows at hr'
  have hrdb : r ∈ db := (List.mem_filter.mp hr').1
  have hprop := (List.mem_filter.mp hr').2
  rw [decide_eq_true_eq] at hprop
  obtain ⟨hm, h4⟩ := hprop
  have hcoh : r ∈ cohortHighRows db target := by
    unfold cohortHighRows
    exact List.mem_filter.mpr ⟨hrdb, by
      rw [decide_eq_true_eq]
      exact ⟨h4, mem_seedUsers_of db target hrdb hm h4⟩⟩
  have hcand : target ∈ simCandidates db target := by
    unfold simCandidates
    rw [List.mem_dedup]
    exact List.mem_map.mpr ⟨r, hcoh, hm⟩
  unfold get_similar_recs sortDescBy
  rw [if_pos rfl, Option.getD_some, List.mem_insertionSort]
  apply List.mem_filter.mpr
  refine ⟨List.mem_map.mpr ⟨target, hcand, ?_⟩, by norm_num⟩
  rw [similarityScore_target db target h]

theorem C10_witness :
    seedRows exDb 1 ≠ [] ∧
      (1, (1:ℚ)) ∈ (get_similar_recs true exDb 1).getD [] :=
  ⟨by decide, C10_target_scores_one exDb 1 (by decide)⟩

theorem cacheLookup_append_of_none {α : Type} (c : List (Nat × α)) (k : Nat)
    (v : α) (h : cacheLookup c k = none) :
    cacheLookup (c ++ [(k, v)]) k = some v := by
  unfold cacheLookup at h ⊢
  rw [Option.map_eq_none'] at h
  rw [List.find?_append, h]
  simp [List.find?]

/-- C9: with the memoisation layer made explicit, calling
`recommendation` twice for the same movie against the same data snapshot
yields identical output: the second call replays the recorded fetch
results of the first. -/
theorem C9_two_calls_identical (okSim okAll : Bool) (db : List RatingRow)
    (movies : List MovieRow) (m : Nat) (s0 : CacheState) :
    (recommendation_cached okSim okAll db movies m
        ((recommendation_cached okSim okAll db movies m s0).2)).1 =
      (recommendation_cached okSim okAll db movies m s0).1 := by
  unfold recommendation_cached get_cached_similar_recs get_cached_all_user_recs
  cases hs : cacheLookup s0.simCache m with
  | some v =>
    cases ha : cacheLookup s0.allCache m with
    | some w => simp [hs, ha]
    | none => simp [hs, ha, cacheLookup_append_of_none]
  | none =>
    cases ha : cacheLookup s0.allCache m with
    | some w => simp [hs, ha, cacheLookup_append_of_none]
    | none => simp [hs, ha, cacheLookup_append_of_none]

theorem find?_eq_some_of_nodup (sim : List (Nat × ℚ)) (m : Nat) (a : ℚ)
    (hkeys : (sim.map Prod.fst).Nodup) (hmem : (m, a) ∈ sim) :
    sim.find? (fun p => decide (p.1 = m)) = some (m, a) := by
  induction sim with
  | nil => cases hmem
  | cons hd tl ih =>
    rw [List.map_cons, List.nodup_cons] at hkeys
    rcases List.mem_cons.mp hmem with h | h
    · subst h
      exact List.find?_cons_of_pos _ (by simp)
    · have hne : ¬hd.1 = m := fun he =>
        hkeys.1 (he ▸ List.mem_map.mpr ⟨(m, a), h, rfl⟩)
      rw [List.find?_cons_of_neg _ (by simpa using hne)]
      exact ih hkeys.2 h

theorem lookupScore_eq_of_nodup (sim : List (Nat × ℚ)) (m : Nat) (a : ℚ)
    (hkeys : (sim.map Prod.fst).Nodup) (hmem : (m, a) ∈ sim) :
    lookupScore sim m = a := by
  unfold lookupScore
  rw [find?_eq_some_of_nodup sim m a hkeys hmem]

theorem lookupScore_eq_zero_of_not_mem (l : List (Nat × ℚ)) (m : Nat)
    (h : m ∉ l.map Prod.fst) : lookupScore l m = 0 := by
  unfold lookupScore
  rw [List.find?_eq_none.mpr]
  intro p hp
  simp only [decide_eq_true_eq]
  exact fun he => h (he ▸ List.mem_map.mpr ⟨p, hp, rfl⟩)

theorem popularity_keys (all_users : List RatingRow) :
    (popularity_counts all_users).map Prod.fst =
      (all_users.map (fun r => r.movieId)).dedup := by
  unfold popularity_counts
  rw [List.map_map]
  exact List.map_id _

/-- C1 amended: for every merged row produced by the Score Combiner,
the combined score equals affinity divided by the popularity value with
exactly-zero popularity replaced by 1 (`count.replace(0, 1)`); values
strictly between 0 and 1 are used as they are, not floored to 1. -/
theorem C1_amended_replace_zero (sim : List (Nat × ℚ))
    (all_users : List RatingRow) (row : ScoredRow)
    (h : row ∈ combined_recommendations sim all_users) :
    row.score = row.similarity_score /
      (if row.count = 0 then 1 else row.count) := by
  unfold combined_recommendations sortDescBy at h
  rw [List.mem_insertionSort] at h
  obtain ⟨m, -, rfl⟩ := List.mem_map.mp h
  rfl

theorem C1_amended_witness :
    ((⟨1, 1, 1, 1⟩ : ScoredRow) ∈
        combined_recommendations [(1, 1)] [⟨1, 1, 5⟩]) ∧
      (⟨1, 1, 1, 1⟩ : ScoredRow).score =
        (⟨1, 1, 1, 1⟩ : ScoredRow).similarity_score /
          (if (⟨1, 1, 1, 1⟩ : ScoredRow).count = 0 then 1
           else (⟨1, 1, 1, 1⟩ : ScoredRow).count) := by
  have hmem : (⟨1, 1, 1, 1⟩ : ScoredRow) ∈
      combined_recommendations [(1, 1)] [⟨1, 1, 5⟩] := by
    norm_num [combined_recommendations, sortDescBy, mergedKeys,
      popularity_counts, lookupScore, List.insertionSort,
      List.orderedInsert, List.find?, List.filter_cons,
      List.dedup_cons_of_mem, List.dedup_cons_of_not_mem]
  exact ⟨hmem, C1_amended_replace_zero [(1, 1)] [⟨1, 1, 5⟩] ⟨1, 1, 1, 1⟩ hmem⟩

/-- C1 counterexample: in the merged table for target movie 1 of
`exDb`, movie 2 has affinity 1/2 and popularity 1/2; the code keeps the
raw popularity as divisor (score 1), whereas affinity divided by
`max(popularity, 1)` would give 1/2: a popularity strictly between 0
and 1 is not floored to 1. -/
theorem C1_counterexample :
    ∃ row ∈ combined_recommendations ((get_similar_recs true exDb 1).getD [])
        ((get_all_user_recs true exDb 1).getD []),
      row.similarity_score = 1/2 ∧ row.count = 1/2 ∧ row.score = 1 ∧
        row.score ≠ row.similarity_score / max row.count 1 := by
  refine ⟨⟨2, 1/2, 1/2, 1⟩, ?_, rfl, rfl, rfl, ?_⟩
  · norm_num [combined_recommendations, sortDescBy, mergedKeys,
      popularity_counts, lookupScore, get_similar_recs, get_all_user_recs,
      similar_movies, allScore, joinCount, fuMult, simCandidates,
      cohortHighRows, seedUsers, seedRows, similarityScore, simNumerator,
      seedEventCount, exDb, List.insertionSort, List.orderedInsert,
      List.find?, List.filter_cons, List.dedup_cons_of_mem,
      List.dedup_cons_of_not_mem]
  · rw [show max ((1:ℚ)/2) 1 = 1 from max_eq_right (by norm_num)]
    norm_num

/-- C4: a movie present in the affinity mapping with nonzero affinity
but no row in the popularity statistic gets popularity 0 from
`fillna(0)`, and its final score equals its affinity exactly (the zero
divisor is replaced by 1). -/
theorem C4_zero_popularity_score_is_affinity (sim : List (Nat × ℚ))
    (all_users : List RatingRow) (m : Nat) (a : ℚ)
    (hkeys : (sim.map Prod.fst).Nodup) (hmem : (m, a) ∈ sim)
    (ha : a ≠ 0) (hpop : m ∉ all_users.map (fun r => r.movieId)) :
    ∃ row ∈ combined_recommendations sim all_users,
      row.movieId = m ∧ row.similarity_score = a ∧ row.count = 0 ∧
        row.score = a := by
  have hsim : lookupScore sim m = a := lookupScore_eq_of_nodup sim m a hkeys hmem
  have hc : lookupScore (popularity_counts all_users) m = 0 := by
    apply lookupScore_eq_zero_of_not_mem
    rw [popularity_keys]
    exact fun hd => hpop (List.mem_dedup.mp hd)
  have hmk : m ∈ mergedKeys sim (popularity_counts all_users) := by
    unfold mergedKeys
    exact List.mem_append_left _ (List.mem_map.mpr ⟨(m, a), hmem, rfl⟩)
  refine ⟨{ movieId := m
            similarity_score := lookupScore sim m
            count := lookupScore (popularity_counts all_users) m
            score := lookupScore sim m /
              (if lookupScore (popularity_counts all_users) m = 0 then 1
               else lookupScore (popularity_counts all_users) m) },
    ?_, rfl, hsim, hc, ?_⟩
  · unfold combined_recommendations sortDescBy
    rw [List.mem_insertionSort]
    exact List.mem_map.mpr ⟨m, hmk, rfl⟩
  · rw [hsim, hc]
    simp

theorem C4_witness :
    ((([(2, (1/2 : ℚ))].map Prod.fst).Nodup ∧
        (2, (1/2 : ℚ)) ∈ [(2, (1/2 : ℚ))] ∧ (1/2 : ℚ) ≠ 0 ∧
        2 ∉ ([⟨1, 1, 5⟩] : List RatingRow).map (fun r => r.movieId)) ∧
      ∃ row ∈ combined_recommendations [(2, (1/2 : ℚ))]
          ([⟨1, 1, 5⟩] : List RatingRow),
        row.movieId = 2 ∧ row.similarity_score = 1/2 ∧ row.count = 0 ∧
          row.score = 1/2) := by
  have h1 : (([(2, (1/2 : ℚ))].map Prod.fst)).Nodup := by simp
  have h2 : (2, (1/2 : ℚ)) ∈ [(2, (1/2 : ℚ))] := List.mem_singleton.mpr rfl
  have h3 : (1/2 : ℚ) ≠ 0 := by norm_num
  have h4 : 2 ∉ ([⟨1, 1, 5⟩] : List RatingRow).map (fun r => r.movieId) := by
    simp
  exact ⟨⟨h1, h2, h3, h4⟩,
    C4_zero_popularity_score_is_affinity [(2, (1/2 : ℚ))] [⟨1, 1, 5⟩] 2 (1/2)
      h1 h2 h3 h4⟩

theorem joinMovies_movieId_mem (scored : List ScoredRow)
    (movies : List MovieRow) :
    ∀ row ∈ joinMovies scored movies,
      row.movieId ∈ movies.map (fun mv => mv.movieId) := by
  intro row hrow
  unfold joinMovies at hrow
  rw [List.mem_flatMap] at hrow
  obtain ⟨src, -, hrow⟩ := hrow
  obtain ⟨mv, hmv, rfl⟩ := List.mem_map.mp hrow
  have h2 := (List.mem_filter.mp hmv).2
  rw [decide_eq_true_eq] at h2
  exact List.mem_map.mpr ⟨mv, (List.mem_filter.mp hmv).1, h2⟩

/-- C8: a movieId absent from the movie metadata table never appears in
the output of `recommendation` (inner-join semantics: the scored row is
silently dropped, not kept with a missing title). -/
theorem C8_missing_metadata_excluded (okSim okAll : Bool)
    (db : List RatingRow) (movies : List MovieRow) (movie_id m : Nat)
    (h : m ∉ movies.map (fun mv => mv.movieId)) :
    ∀ row ∈ recommendation okSim okAll db movies movie_id,
      row.movieId ≠ m := by
  intro row hrow heq
  apply h
  rw [← heq]
  unfold recommendation recommendation_body at hrow
  cases hA : get_all_user_recs okAll db movie_id with
  | none => rw [hA] at hrow; cases hrow
  | some all_users =>
    rw [hA] at hrow
    by_cases hE : all_users = []
    · simp only [if_pos hE] at hrow
      cases hrow
    · simp only [if_neg hE] at hrow
      cases hS : get_similar_recs okSim db movie_id with
      | none => rw [hS] at hrow; cases hrow
      | some sim =>
        rw [hS] at hrow
        exact joinMovies_movieId_mem _ _ row hrow

theorem C8_witness :
    (3 ∉ ([⟨1, "A"⟩, ⟨2, "B"⟩] : List MovieRow).map (fun mv => mv.movieId)) ∧
      ∀ row ∈ recommendation true true exDb [⟨1, "A"⟩, ⟨2, "B"⟩] 1,
        row.movieId ≠ 3 :=
  ⟨by decide,
    C8_missing_metadata_excluded true true exDb [⟨1, "A"⟩, ⟨2, "B"⟩] 1 3
      (by decide)⟩

/-- C5 counterexample: in `dupDb`, user 1 rated movie 2 twice with
rating 5; for target movie 1 the similarity query reports score 2 for
movie 2, outside [0,1]: the row-count numerator is not bounded by the
seed event count when a user rates a movie more than once. -/
theorem C5_counterexample :
    ∃ p ∈ (get_similar_recs true dupDb 1).getD [], 1 < p.2 := by
  refine ⟨(2, 2), ?_, by norm_num⟩
  norm_num [get_similar_recs, sortDescBy, simCandidates, cohortHighRows,
    seedUsers, seedRows, similarityScore, simNumerator, seedEventCount,
    dupDb, List.insertionSort, List.orderedInsert, List.filter_cons,
    List.dedup_cons_of_mem, List.dedup_cons_of_not_mem]

theorem userId_nodup_of_pairs_nodup {l : List RatingRow} {m : Nat}
    (hpairs : (l.map (fun r => (r.userId, r.movieId))).Nodup)
    (hm : ∀ r ∈ l, r.movieId = m) :
    (l.map (fun r => r.userId)).Nodup := by
  unfold List.Nodup at hpairs ⊢
  rw [List.pairwise_map] at hpairs ⊢
  exact hpairs.imp_of_mem
    (fun {a b} ha hb hne heq => hne (by rw [heq, hm a ha, hm b hb]))

theorem simNumerator_le_seedEventCount (db : List RatingRow) (target m : Nat)
    (hnodup : (db.map (fun r => (r.userId, r.movieId))).Nodup) :
    simNumerator db target m ≤ seedEventCount db target := by
  unfold simNumerator seedEventCount
  have hsub1 : (cohortHighRows db target).Sublist db := by
    unfold cohortHighRows
    exact List.filter_sublist _
  have hsub : ((cohortHighRows db target).filter
      (fun r => decide (r.movieId = m))).Sublist db :=
    (List.filter_sublist _).trans hsub1
  have hpairsL : (((cohortHighRows db target).filter
      (fun r => decide (r.movieId = m))).map
        (fun r => (r.userId, r.movieId))).Nodup :=
    List.Nodup.sublist (hsub.map _) hnodup
  have hmall : ∀ r ∈ (cohortHighRows db target).filter
      (fun r => decide (r.movieId = m)), r.movieId = m := by
    intro r hr
    have := (List.mem_filter.mp hr).2
    rwa [decide_eq_true_eq] at this
  have husers : (((cohortHighRows db target).filter
      (fun r => decide (r.movieId = m))).map
        (fun r => r.userId)).Nodup :=
    userId_nodup_of_pairs_nodup hpairsL hmall
  have hsubset : (((cohortHighRows db target).filter
      (fun r => decide (r.movieId = m))).map (fun r => r.userId)) ⊆
      seedUsers db target := by
    intro u hu
    obtain ⟨r, hrL, rfl⟩ := List.mem_map.mp hu
    have hrcoh : r ∈ cohortHighRows db target := (List.mem_filter.mp hrL).1
    have hprop := (List.mem_filter.mp (by
      unfold cohortHighRows at hrcoh
      exact hrcoh)).2
    rw [decide_eq_true_eq] at hprop
    exact hprop.2
  calc ((cohortHighRows db target).filter
      (fun r => decide (r.movieId = m))).length
      = (((cohortHighRows db target).filter
          (fun r => decide (r.movieId = m))).map (fun r => r.userId)).length :=
        (List.length_map _ _).symm
    _ ≤ (seedUsers db target).length :=
        (List.subperm_of_subset husers hsubset).length_le
    _ = (seedRows db target).length := List.length_map _ _

/-- C5 amended: if every `(userId, movieId)` pair occurs at most once in
the ratings table (each user rates each movie at most once), then every
similarity score returned by `get_similar_recs` lies in [0,1]. -/
theorem C5_amended_scores_in_unit (db : List RatingRow) (target : Nat)
    (p : Nat × ℚ)
    (hnodup : (db.map (fun r => (r.userId, r.movieId))).Nodup)
    (hp : p ∈ (get_similar_recs true db target).getD []) :
    0 ≤ p.2 ∧ p.2 ≤ 1 := by
  unfold get_similar_recs sortDescBy at hp
  rw [if_pos rfl, Option.getD_some, List.mem_insertionSort] at hp
  have hp1 := (List.mem_filter.mp hp).1
  obtain ⟨m, -, rfl⟩ := List.mem_map.mp hp1
  constructor
  · show (0:ℚ) ≤ similarityScore db target m
    unfold similarityScore
    exact div_nonneg (Nat.cast_nonneg _) (Nat.cast_nonneg _)
  · show similarityScore db target m ≤ 1
    unfold similarityScore
    rcases Nat.eq_zero_or_pos (seedEventCount db target) with h0 | hpos
    · rw [h0]
      norm_num
    · rw [div_le_one (by exact_mod_cast hpos)]
      exact_mod_cast simNumerator_le_seedEventCount db target m hnodup

theorem C5_amended_witness :
    ((([⟨1, 1, 5⟩] : List RatingRow).map
        (fun r => (r.userId, r.movieId))).Nodup ∧
      (1, (1:ℚ)) ∈ (get_similar_recs true [⟨1, 1, 5⟩] 1).getD []) ∧
      0 ≤ ((1, (1:ℚ))).2 ∧ ((1, (1:ℚ))).2 ≤ 1 := by
  have h1 : (([⟨1, 1, 5⟩] : List RatingRow).map
      (fun r => (r.userId, r.movieId))).Nodup := by simp
  have h2 : (1, (1:ℚ)) ∈ (get_similar_recs true [⟨1, 1, 5⟩] 1).getD [] := by
    norm_num [get_similar_recs, sortDescBy, simCandidates, cohortHighRows,
      seedUsers, seedRows, similarityScore, simNumerator, seedEventCount,
      List.insertionSort, List.orderedInsert, List.filter_cons,
      List.dedup_cons_of_mem, List.dedup_cons_of_not_mem]
  exact ⟨⟨h1, h2⟩, C5_amended_scores_in_unit [⟨1, 1, 5⟩] 1 (1, 1) h1 h2⟩

theorem pairwise_of_length_le_one {α : Type} {R : α → α → Prop} {l : List α}
    (h : l.length ≤ 1) : l.Pairwise R := by
  match l with
  | [] => exact List.Pairwise.nil
  | [a] => exact List.pairwise_singleton R a
  | a :: b :: t =>
    exact absurd h (by simp only [List.length_cons]; omega)

theorem filter_movieId_length_le_one (movies : List MovieRow) (x : Nat)
    (h : (movies.map (fun mv => mv.movieId)).Nodup) :
    (movies.filter (fun mv => decide (mv.movieId = x))).length ≤ 1 := by
  induction movies with
  | nil => simp
  | cons mv rest ih =>
    rw [List.map_cons, List.nodup_cons] at h
    by_cases hx : mv.movieId = x
    · rw [List.filter_cons_of_pos (by simp [hx])]
      have hnil : rest.filter (fun mv => decide (mv.movieId = x)) = [] := by
        rw [List.filter_eq_nil_iff]
        intro mv' hmv'
        simp only [decide_eq_true_eq]
        intro he
        exact h.1 (List.mem_map.mpr ⟨mv', hmv', he.trans hx.symm⟩)
      rw [hnil]
      simp
    · rw [List.filter_cons_of_neg (by simp [hx])]
      exact ih h.2

theorem list_sum_le_length {l : List Nat} (h : ∀ x ∈ l, x ≤ 1) :
    l.sum ≤ l.length := by
  induction l with
  | nil => simp
  | cons a t ih =>
    simp only [List.sum_cons, List.length_cons]
    have ha := h a (List.mem_cons_self a t)
    have ht := ih (fun x hx => h x (List.mem_cons_of_mem a hx))
    omega

theorem joinMovies_length_le (scored : List ScoredRow) (movies : List MovieRow)
    (h : (movies.map (fun mv => mv.movieId)).Nodup) :
    (joinMovies scored movies).length ≤ scored.length := by
  unfold joinMovies
  rw [List.length_flatMap]
  have hb : ∀ x ∈ scored.map (List.length ∘ fun row =>
      (movies.filter (fun mv => decide (mv.movieId = row.movieId))).map
        (fun mv => ({ movieId := row.movieId
                      similarity_score := row.similarity_score
                      count := row.count
                      score := row.score
                      title := mv.title } : ResultRow))), x ≤ 1 := by
    intro x hx
    obtain ⟨row, -, rfl⟩ := List.mem_map.mp hx
    show ((movies.filter (fun mv => decide (mv.movieId = row.movieId))).map
      _).length ≤ 1
    rw [List.length_map]
    exact filter_movieId_length_le_one movies row.movieId h
  exact le_trans (list_sum_le_length hb) (le_of_eq (List.length_map _ _))

theorem joinMovies_sorted (scored : List ScoredRow) (movies : List MovieRow)
    (h : scored.Pairwise (fun a b => b.score ≤ a.score)) :
    ((joinMovies scored movies).map (fun row => row.score)).Pairwise
      (fun a b => b ≤ a) := by
  unfold joinMovies
  rw [List.pairwise_map, List.pairwise_flatMap]
  constructor
  · intro a _
    apply List.pairwise_of_forall_mem_list
    intro x hx y hy
    obtain ⟨mvx, -, rfl⟩ := List.mem_map.mp hx
    obtain ⟨mvy, -, rfl⟩ := List.mem_map.mp hy
    exact le_refl _
  · refine h.imp_of_mem ?_
    intro a b _ _ hab x hx y hy
    obtain ⟨mvx, -, rfl⟩ := List.mem_map.mp hx
    obtain ⟨mvy, -, rfl⟩ := List.mem_map.mp hy
    exact hab

theorem joinMovies_nodup (scored : List ScoredRow) (movies : List MovieRow)
    (hscored : (scored.map (fun row => row.movieId)).Nodup)
    (hmov : (movies.map (fun mv => mv.movieId)).Nodup) :
    ((joinMovies scored movies).map (fun row => row.movieId)).Nodup := by
  unfold joinMovies
  unfold List.Nodup at hscored ⊢
  rw [List.pairwise_map] at hscored
  rw [List.pairwise_map, List.pairwise_flatMap]
  constructor
  · intro a _
    apply pairwise_of_length_le_one
    rw [List.length_map]
    exact filter_movieId_length_le_one movies a.movieId hmov
  · refine hscored.imp_of_mem ?_
    intro a b _ _ hab x hx y hy
    obtain ⟨mvx, -, rfl⟩ := List.mem_map.mp hx
    obtain ⟨mvy, -, rfl⟩ := List.mem_map.mp hy
    exact hab

theorem sortDescBy_map_perm {α β : Type} (key : α → ℚ) (f : α → β)
    (l : List α) : ((sortDescBy key l).map f).Perm (l.map f) :=
  (List.perm_insertionSort _ l).map f

theorem nodup_map_fst_pairs (keys : List Nat) (g : Nat → ℚ)
    (h : keys.Nodup) :
    ((keys.map (fun m => (m, g m))).map Prod.fst).Nodup := by
  unfold List.Nodup at h ⊢
  rw [List.pairwise_map, List.pairwise_map]
  exact h.imp (fun {a b} hne => hne)

theorem sim_keys_nodup_of_eq (db : List RatingRow) (target : Nat)
    (S : List (Nat × ℚ)) (h : get_similar_recs true db target = some S) :
    (S.map Prod.fst).Nodup := by
  unfold get_similar_recs at h
  rw [if_pos rfl, Option.some_inj] at h
  subst h
  unfold sortDescBy
  refine (((List.perm_insertionSort _ _).map Prod.fst).nodup_iff).mpr ?_
  apply List.Nodup.sublist ((List.filter_sublist _).map Prod.fst)
  apply nodup_map_fst_pairs
  unfold simCandidates
  exact List.nodup_dedup _

theorem mergedKeys_nodup (sim : List (Nat × ℚ)) (all_users : List RatingRow)
    (hsim : (sim.map Prod.fst).Nodup) :
    (mergedKeys sim (popularity_counts all_users)).Nodup := by
  unfold mergedKeys
  rw [List.nodup_append]
  refine ⟨hsim, ?_, ?_⟩
  · exact List.Nodup.filter _
      (by rw [popularity_keys]; exact List.nodup_dedup _)
  · intro a ha hb
    have hb2 := (List.mem_filter.mp hb).2
    rw [decide_eq_true_eq] at hb2
    exact hb2 ha

theorem nodup_map_mk_movieId (keys : List Nat) (f : Nat → ScoredRow)
    (hf : ∀ m, (f m).movieId = m) (h : keys.Nodup) :
    ((keys.map f).map (fun row => row.movieId)).Nodup := by
  unfold List.Nodup at h ⊢
  rw [List.pairwise_map, List.pairwise_map]
  refine h.imp ?_
  intro a b hne heq
  apply hne
  rw [← hf a, ← hf b, heq]

theorem combined_sorted (sim : List (Nat × ℚ)) (all_users : List RatingRow) :
    (combined_recommendations sim all_users).Pairwise
      (fun a b => b.score ≤ a.score) := by
  unfold combined_recommendations sortDescBy
  exact @List.sorted_insertionSort ScoredRow (fun a b => b.score ≤ a.score) _
    ⟨fun a b => le_total b.score a.score⟩
    ⟨fun _ _ _ hab hbc => le_trans hbc hab⟩ _

theorem combined_movieIds_nodup (sim : List (Nat × ℚ))
    (all_users : List RatingRow) (hsim : (sim.map Prod.fst).Nodup) :
    ((combined_recommendations sim all_users).map
      (fun row => row.movieId)).Nodup := by
  unfold combined_recommendations
  refine ((sortDescBy_map_perm _ _ _).nodup_iff).mpr ?_
  exact nodup_map_mk_movieId _ _ (fun _ => rfl)
    (mergedKeys_nodup sim all_users hsim)

theorem body_main_props (sim : List (Nat × ℚ)) (all_users : List RatingRow)
    (movies : List MovieRow)
    (hsim : (sim.map Prod.fst).Nodup)
    (hmov : (movies.map (fun mv => mv.movieId)).Nodup) :
    (joinMovies ((combined_recommendations sim all_users).take 10)
        movies).length ≤ 10 ∧
      ((joinMovies ((combined_recommendations sim all_users).take 10)
          movies).map (fun row => row.score)).Pairwise (fun a b => b ≤ a) ∧
      ((joinMovies ((combined_recommendations sim all_users).take 10)
          movies).map (fun row => row.movieId)).Nodup := by
  refine ⟨?_, ?_, ?_⟩
  · exact le_trans (joinMovies_length_le _ _ hmov) (List.length_take_le _ _)
  · exact joinMovies_sorted _ _
      (List.Pairwise.sublist (List.take_sublist _ _)
        (combined_sorted sim all_users))
  · apply joinMovies_nodup
    · exact List.Nodup.sublist ((List.take_sublist _ _).map _)
        (combined_movieIds_nodup sim all_users hsim)
    · exact hmov

theorem recommendation_eq_join (okSim okAll : Bool) (db : List RatingRow)
    (movies : List MovieRow) (target : Nat) (S : List (Nat × ℚ))
    (AU : List RatingRow)
    (hS : get_similar_recs okSim db target = some S)
    (hAU : get_all_user_recs okAll db target = some AU) (hne : AU ≠ []) :
    recommendation okSim okAll db movies target =
      joinMovies ((combined_recommendations S AU).take 10) movies := by
  simp [recommendation, recommendation_body, hS, hAU, hne]

/-- C3: for a movie with a nonempty seed cohort and a metadata table
with pairwise distinct movie ids, `recommendation` returns at most 10
rows, sorted by descending score, with no duplicate movieId. -/
theorem C3_topk_sorted_nodup (okSim okAll : Bool) (db : List RatingRow)
    (movies : List MovieRow) (target : Nat)
    (hseed : seedRows db target ≠ [])
    (hmov : (movies.map (fun mv => mv.movieId)).Nodup) :
    (recommendation okSim okAll db movies target).length ≤ 10 ∧
      ((recommendation okSim okAll db movies target).map
        (fun row => row.score)).Pairwise (fun a b => b ≤ a) ∧
      ((recommendation okSim okAll db movies target).map
        (fun row => row.movieId)).Nodup := by
  cases hAUv : get_all_user_recs okAll db target with
  | none =>
    have hnil : recommendation okSim okAll db movies target = [] := by
      unfold recommendation recommendation_body
      rw [hAUv]
    rw [hnil]
    exact ⟨by simp, List.Pairwise.nil, List.nodup_nil⟩
  | some AU =>
    by_cases hne : AU = []
    · have hnil : recommendation okSim okAll db movies target = [] := by
        simp [recommendation, recommendation_body, hAUv, hne]
      rw [hnil]
      exact ⟨by simp, List.Pairwise.nil, List.nodup_nil⟩
    · cases hSv : get_similar_recs okSim db target with
      | none =>
        have hnil : recommendation okSim okAll db movies target = [] := by
          simp [recommendation, recommendation_body, hAUv, hSv, hne]
        rw [hnil]
        exact ⟨by simp, List.Pairwise.nil, List.nodup_nil⟩
      | some S =>
        rw [recommendation_eq_join okSim okAll db movies target S AU hSv
          hAUv hne]
        have hsim : (S.map Prod.fst).Nodup := by
          cases okSim with
          | false => exact absurd hSv (by simp [get_similar_recs])
          | true => exact sim_keys_nodup_of_eq db target S hSv
        exact body_main_props S AU movies hsim hmov

theorem C3_witness :
    (seedRows exDb 1 ≠ [] ∧
        ((exMovies.map (fun mv => mv.movieId)).Nodup)) ∧
      ((recommendation true true exDb exMovies 1).length ≤ 10 ∧
        ((recommendation true true exDb exMovies 1).map
          (fun row => row.score)).Pairwise (fun a b => b ≤ a) ∧
        ((recommendation true true exDb exMovies 1).map
          (fun row => row.movieId)).Nodup) :=
  ⟨⟨by decide, by decide⟩,
    C3_topk_sorted_nodup true true exDb exMovies 1 (by decide) (by decide)⟩
